import Mathlib

/-!
Verification development for the feed-forward neural-network engine in
`src/include/Network.hpp` (namespace `NN`).  The `Network` class template is
embedded shallowly: dense matrices become lists of lists of rationals,
`std::optional` becomes `Option`, thrown exceptions become `Except.error`
(every throw in the source occurs before any member is mutated on that path,
so an error result means the caller's network is unchanged), and the
`double` arithmetic is carried out over `ℚ`.

The `Layer` collaborator (`Layer.hpp`) is not part of the given sources; the
spec treats it as an external contract (spec section 4.1).  Every definition
that stands in for missing `Layer` code carries a doc comment starting with
"Modelled from the spec:".
-/

namespace NN

/-- Dense vector, as in the source's `Vec` (an Eigen column vector of
`double`), with entries in `ℚ`. -/
abbrev Vec := List ℚ

/-- Dense matrix, as in the source's `Mat` (an Eigen dynamic matrix of
`double`): a row-major list of rows. -/
structure Mat where
  data : List (List ℚ)
deriving DecidableEq

/-- Row count, as Eigen's `rows()`. -/
def Mat.rows (m : Mat) : Nat := m.data.length

/-- Column count, as Eigen's `cols()` (empty matrix has 0 columns). -/
def Mat.cols (m : Mat) : Nat := (m.data.headD []).length

/-- Matrix whose entries are all zero.  Eigen's sized constructor
(`Mat m(r, c)`) allocates without initializing; those allocations are
modelled as zero-filled here. -/
def Mat.zeros (r c : Nat) : Mat := ⟨List.replicate r (List.replicate c 0)⟩

/-- Row-major flattening, used where the source assigns a one-column or
one-row `Mat` to a `Vec`. -/
def Mat.flatten (m : Mat) : Vec := m.data.flatten

/-- Elementwise vector difference, Eigen's `operator-` on vectors. -/
def vsub (a b : Vec) : Vec := List.zipWith (· - ·) a b

/-- Dot product, Eigen's `Vec::dot`. -/
def dot (a b : Vec) : ℚ := (List.zipWith (· * ·) a b).sum

/-- Matrix-matrix product `a * b`. -/
def Mat.mul (a b : Mat) : Mat :=
  ⟨a.data.map (fun row => (List.range b.cols).map (fun j => dot row (b.data.map (fun r => r.getD j 0))))⟩

/-- Product of the transpose of `w` with vector `v`. -/
def Mat.tmulVec (w : Mat) (v : Vec) : Vec :=
  (List.range w.cols).map (fun j => dot (w.data.map (fun r => r.getD j 0)) v)

/-- Outer product of two vectors as a matrix. -/
def Mat.outer (e v : Vec) : Mat := ⟨e.map (fun x => v.map (fun y => x * y))⟩

/-- Elementwise matrix difference. -/
def Mat.sub (a b : Mat) : Mat := ⟨List.zipWith (List.zipWith (· - ·)) a.data b.data⟩

/-- Matrix scaled by a rational. -/
def Mat.smul (c : ℚ) (m : Mat) : Mat := ⟨m.data.map (List.map (fun x => c * x))⟩

/-- Modelled from the spec: the arithmetic of a single layer's activation is
owned by the Layer collaborator and is out of scope (spec section 1); every
scenario in the spec uses the identity activation, so activation application
is the identity map here for every name. -/
def actApply (_name : String) (m : Mat) : Mat := m

/-- Modelled from the spec: derivative of the activation, elementwise over
the cached output; the identity activation (the only one the spec's
scenarios exercise) has derivative 1 everywhere. -/
def actDeriv (_name : String) (v : Vec) : Vec := v.map (fun _ => 1)

/-- Modelled from the spec: the Layer collaborator's attributes, spec
section 3 — input shape (rows × cols), weight matrix, last input, last
output, last error term, last parameter gradient, activation identifier,
update-rule hyperparameters (here a single learning rate, the fixed-step
rule of spec section 4.5). -/
structure Layer where
  input_shape : Nat × Nat
  output_width : Nat
  activation : String
  weights : Mat
  last_input : Mat
  last_output : Mat
  err : Vec
  gradient : Mat
  lr : ℚ
deriving DecidableEq

/-- Modelled from the spec: Layer construction from
`(input_shape, output_width, activation_name)` (spec section 6), with
default-allocated numeric members modelled as zeros. -/
def Layer.create (shape : Nat × Nat) (width : Nat) (act : String) : Layer :=
  { input_shape := shape
    output_width := width
    activation := act
    weights := Mat.zeros width shape.1
    last_input := Mat.zeros shape.1 shape.2
    last_output := Mat.zeros width shape.2
    err := []
    gradient := Mat.zeros 0 0
    lr := 0 }

/-- Default layer used only to totalize list indexing in theorem
statements. -/
def Layer.dflt : Layer := Layer.create (0, 0) 0 ""

/-- Modelled from the spec: `Layer::getInputShape`. -/
def Layer.getInputShape (l : Layer) : Nat × Nat := l.input_shape

/-- Modelled from the spec: `Layer::setInputShape`, structural
reconfiguration of the declared input shape (spec section 4.1). -/
def Layer.setInputShape (l : Layer) (s : Nat × Nat) : Layer := { l with input_shape := s }

/-- Modelled from the spec: `Layer::setInputs` caches the given matrix as
the layer's last input (spec section 3 lists "last input" as an attribute
distinct from the declared input shape). -/
def Layer.setInputs (l : Layer) (m : Mat) : Layer := { l with last_input := m }

/-- Modelled from the spec: `Layer::getWeights`. -/
def Layer.getWeights (l : Layer) : Mat := l.weights

/-- Modelled from the spec: `Layer::setWeights`, bulk weight replacement. -/
def Layer.setWeights (l : Layer) (w : Mat) : Layer := { l with weights := w }

/-- Modelled from the spec: `Layer::setUpdateParams` stores the update
rule's hyperparameters (spec section 4.5; a learning rate here). -/
def Layer.setUpdateParams (l : Layer) (rate : ℚ) : Layer := { l with lr := rate }

/-- Modelled from the spec: `Layer::forwardPass` — output is a pure
function of current weights and cached input (affine map then activation,
spec sections 3 and 4.1), recomputing the cached output. -/
def Layer.forwardPass (l : Layer) : Layer :=
  { l with last_output := actApply l.activation (Mat.mul l.weights l.last_input) }

/-- Modelled from the spec: `Layer::backwardPass` on an upstream gradient
vector — the error term combines the upstream vector with the activation
derivative at the cached output, and the parameter gradient combines the
error term with the cached input (chain rule, spec section 4.1). -/
def Layer.backwardVec (l : Layer) (g : Vec) : Layer :=
  let e := List.zipWith (· * ·) g (actDeriv l.activation l.last_output.flatten)
  { l with err := e, gradient := Mat.outer e l.last_input.flatten }

/-- Modelled from the spec: `Layer::backwardPass` on a downstream layer —
a non-last layer receives the immediately-downstream layer's error term
(spec section 4.3), propagated through that layer's weights. -/
def Layer.backwardFromLayer (l downstream : Layer) : Layer :=
  l.backwardVec (Mat.tmulVec downstream.weights downstream.err)

/-- Modelled from the spec: `Layer::updateWeights` applies the fixed-step
rule to the cached gradient (spec section 4.5), mutating the weight
matrix in place. -/
def Layer.updateWeights (l : Layer) : Layer :=
  { l with weights := Mat.sub l.weights (Mat.smul l.lr l.gradient) }

/-- The global loss registry `NN::VECTOR_LOSS` (Network.hpp lines 24-29):
name-indexed scalar loss functions; only `"L2"` is registered, returning
`0.5 * resid.dot(resid)` for `resid = pred - obs`. -/
def VECTOR_LOSS : List (String × (Vec → Vec → ℚ)) :=
  [("L2", fun pred obs => (1 / 2 : ℚ) * dot (vsub pred obs) (vsub pred obs))]

/-- The global registry `NN::VECTOR_LOSS_DERIVATIVE` (lines 31-33): the
`"L2"` derivative is `pred - obs`. -/
def VECTOR_LOSS_DERIVATIVE : List (String × (Vec → Vec → Vec)) :=
  [("L2", fun pred obs => vsub pred obs)]

/-- Lookup in `VECTOR_LOSS` as the source's `VECTOR_LOSS[loss]` performs
it: `std::unordered_map::operator[]` does not fail on a missing key, it
value-initializes — for a `std::function` value that is the empty
function, modelled as `none`. -/
def lookupLoss (name : String) : Option (Vec → Vec → ℚ) :=
  VECTOR_LOSS.lookup name

/-- Lookup in `VECTOR_LOSS_DERIVATIVE`, with the same `operator[]`
semantics (missing key yields the empty function, modelled `none`). -/
def lookupLossDeriv (name : String) : Option (Vec → Vec → Vec) :=
  VECTOR_LOSS_DERIVATIVE.lookup name

/-- Error conditions corresponding to the `throw` statements in
`Network.hpp`, plus the `std::bad_function_call` raised by invoking an
empty `std::function`. -/
inductive NetError where
  | shapeMismatchRows
  | shapeMismatchCols
  | targetLengthMismatch
  | arityMismatch
  | badFunctionCall
deriving DecidableEq

/-- The `NN::Network` state (Network.hpp lines 36-67): input shape, input
matrix, output count, output/target vectors, the layer list with its
parallel input-shape list, the active loss pair (an `Option` because the
members are `std::function`s that may be empty), the cached loss
derivative, scalar loss, residual, training-loss history and the exposed
gradient. -/
structure Network where
  input_shape : Nat × Nat
  inputs : Mat
  num_outputs : Nat
  outputs : Vec
  target : Vec
  layers : List Layer
  layer_input_shapes : List (Nat × Nat)
  vector_loss_func : Option (Vec → Vec → ℚ)
  vector_loss_derivative : Option (Vec → Vec → Vec)
  loss_deriv : Vec
  scalar_loss : ℚ
  trainingLoss : List ℚ
  resid : Vec
  gradient : Mat

/-- Constructor from `(input_shape, num_outputs, activation, loss)`
(Network.hpp lines 70-83): a single final layer is created and both shape
lists hold exactly the input shape; the loss pair comes from
`operator[]` lookups; default-allocated numeric members are modelled as
zeros. -/
def Network.mk1 (shape : Nat × Nat) (nout : Nat) (activation loss : String) : Network :=
  { input_shape := shape
    inputs := Mat.zeros shape.1 shape.2
    num_outputs := nout
    outputs := List.replicate nout 0
    target := List.replicate nout 0
    layers := [Layer.create shape nout activation]
    layer_input_shapes := [shape]
    vector_loss_func := lookupLoss loss
    vector_loss_derivative := lookupLossDeriv loss
    loss_deriv := List.replicate nout 0
    scalar_loss := 0
    trainingLoss := []
    resid := []
    gradient := Mat.zeros 0 0 }

/-- Constructor from a pre-built layer list (Network.hpp lines 85-93):
the shape list collects each layer's input shape, `input_shape` is its
first entry and `num_outputs` is the second component of its last entry.
The loss members are left default-constructed (empty), modelled `none`;
`(0, 0)` stands in for the undefined front/back of an empty list. -/
def Network.mkFromLayers (ls : List Layer) : Network :=
  let shapes := ls.map Layer.getInputShape
  { input_shape := shapes.headD (0, 0)
    inputs := Mat.zeros 0 0
    num_outputs := (shapes.getLastD (0, 0)).2
    outputs := []
    target := []
    layers := ls
    layer_input_shapes := shapes
    vector_loss_func := none
    vector_loss_derivative := none
    loss_deriv := []
    scalar_loss := 0
    trainingLoss := []
    resid := []
    gradient := Mat.zeros 0 0 }

/-- Constructor from `(activation, loss, layers)` (Network.hpp lines
95-108); the `activation` argument is unused by the source body, the
rest behaves as the layer-list constructor with a loss lookup. -/
def Network.mk3 (_activation loss : String) (ls : List Layer) : Network :=
  { Network.mkFromLayers ls with
    vector_loss_func := lookupLoss loss
    vector_loss_derivative := lookupLossDeriv loss }

/-- The accessor `getWeights` (lines 243-250): one weight matrix per
layer, in layer order. -/
def Network.getWeights (net : Network) : List Mat :=
  net.layers.map Layer.getWeights

/-- Apply a function to the first element of a list (the source's
`layers[0]` / `layer_input_shapes[0]` mutations). -/
def updateHead (f : α → α) : List α → List α
  | [] => []
  | a :: rest => f a :: rest

/-- Apply a function to the last element of a list (the source's
`.back()` mutations). -/
def updateLast (f : α → α) : List α → List α
  | [] => []
  | [a] => [f a]
  | a :: b :: rest => a :: updateLast f (b :: rest)

/-- Insert an element before position `n` (the source's
`std::list::insert` at an iterator). -/
def insertAt (n : Nat) (a : α) (l : List α) : List α :=
  l.take n ++ a :: l.drop n

/-- The mutator `setInputs` (lines 155-171): without the override flag the
new matrix must match the declared input shape (rows checked first, then
columns) and is then assigned; with the flag, the matrix is adopted, the
network's input shape is recomputed from it, the first layer receives the
matrix via `Layer::setInputs`, and the first recorded shape is replaced. -/
def Network.setInputs (net : Network) (m : Mat) (overrideInputShape : Bool) :
    Except NetError Network :=
  if !overrideInputShape then
    if m.rows ≠ net.input_shape.1 then .error .shapeMismatchRows
    else if m.cols ≠ net.input_shape.2 then .error .shapeMismatchCols
    else .ok { net with inputs := m }
  else
    .ok { net with
      inputs := m
      input_shape := (m.rows, m.cols)
      layers := updateHead (fun l => l.setInputs m) net.layers
      layer_input_shapes := updateHead (fun _ => (m.rows, m.cols)) net.layer_input_shapes }

/-- The mutator `setTarget` (lines 173-187).  A target of matching length
is assigned directly.  On a length mismatch with the override flag, the
source executes `num_outputs = target.size()` — reading the OLD `target`
member, not the `_target` argument — then writes that value into the
second component of the last recorded shape, pushes that shape into the
last layer via `setInputShape`, and finally stores the new target. -/
def Network.setTarget (net : Network) (t : Vec) (overrideTargetSize : Bool) :
    Except NetError Network :=
  if t.length ≠ net.num_outputs then
    if overrideTargetSize then
      let no := net.target.length
      let shapes := updateLast (fun s => (s.1, no)) net.layer_input_shapes
      .ok { net with
        num_outputs := no
        layer_input_shapes := shapes
        layers := updateLast (fun l => l.setInputShape (shapes.getLastD (0, 0))) net.layers
        target := t }
    else .error .targetLengthMismatch
  else .ok { net with target := t }

/-- The mutator `setLayers` (lines 189-204): replaces the layer list and
fully recomputes the shape list, the input shape (front entry) and the
output count (second component of the back entry). -/
def Network.setLayers (net : Network) (newLayers : List Layer) : Network :=
  let shapes := newLayers.map Layer.getInputShape
  { net with
    layers := newLayers
    layer_input_shapes := shapes
    input_shape := shapes.headD (0, 0)
    num_outputs := (shapes.getLastD (0, 0)).2 }

/-- The mutator `appendLayers` (lines 207-218): pushes each new layer's
input shape onto the shape list, recomputes `num_outputs` from the (new)
back entry, and splices the layers onto the end of the list. -/
def Network.appendLayers (net : Network) (newLayers : List Layer) : Network :=
  let shapes := net.layer_input_shapes ++ newLayers.map Layer.getInputShape
  { net with
    layer_input_shapes := shapes
    num_outputs := (shapes.getLastD (0, 0)).2
    layers := net.layers ++ newLayers }

/-- The mutator `insertLayer` (lines 220-241); the iterator argument is
embedded as a position index, with `pos = layers.length` playing
`layers.end()`.  Inserting at the end delegates to `appendLayers`; any
other position inserts and then fully recomputes the shape list, input
shape and output count. -/
def Network.insertLayer (net : Network) (pos : Nat) (newLayer : Layer) : Network :=
  if pos = net.layers.length then net.appendLayers [newLayer]
  else
    let ls := insertAt pos newLayer net.layers
    let shapes := ls.map Layer.getInputShape
    { net with
      layers := ls
      layer_input_shapes := shapes
      input_shape := shapes.headD (0, 0)
      num_outputs := (shapes.getLastD (0, 0)).2 }

/-- The mutator `setWeights` (lines 263-271): the arity check precedes
the per-layer loop, so a mismatched list length throws before any layer
is touched. -/
def Network.setWeights (net : Network) (weights : List Mat) : Except NetError Network :=
  if weights.length ≠ net.layers.length then .error .arityMismatch
  else .ok { net with layers := List.zipWith Layer.setWeights net.layers weights }

/-- The mutator `setUpdateParams` with one shared hyperparameter set
(lines 273-278). -/
def Network.setUpdateParams (net : Network) (rate : ℚ) : Network :=
  { net with layers := net.layers.map (fun l => l.setUpdateParams rate) }

/-- The mutator `setLossFunc(std::string)` (lines 308-312): both loss
members are overwritten with `operator[]` lookups (the source writes the
first into `vector_loss`, a slip for the `vector_loss_func` member); an
unknown name overwrites them with empty functions. -/
def Network.setLossFunc (net : Network) (loss : String) : Network :=
  { net with
    vector_loss_func := lookupLoss loss
    vector_loss_derivative := lookupLossDeriv loss }

/-- The forward chain of `predict` (lines 332-340): each layer receives
the running matrix via `Layer::setInputs`, runs `forwardPass`, and its
output becomes the next layer's input; returns the mutated layers and
the final output matrix. -/
def forwardChain (inp : Mat) : List Layer → List Layer × Mat
  | [] => ([], inp)
  | l :: rest =>
    let l' := (l.setInputs inp).forwardPass
    let (rest', out) := forwardChain l'.last_output rest
    (l' :: rest', out)

/-- The `if(inputData){ setInputs(*inputData); }` prologue shared by
`predict`, `predictVal` and `train`: a supplied input is installed with
the override flag defaulted to false. -/
def Network.applyInputArg (net : Network) : Option Mat → Except NetError Network
  | some m => net.setInputs m false
  | none => .ok net

/-- The `if(_target){ setTarget(*_target); }` prologue shared by
`predict`, `predictVal` and `train`: a supplied target is installed with
the override flag defaulted to false. -/
def Network.applyTargetArg (net : Network) : Option Vec → Except NetError Network
  | some t => net.setTarget t false
  | none => .ok net

/-- The forward pass `predict` (lines 322-349): optional input and target
are installed through `setInputs`/`setTarget` with their override flags
defaulted to false (so their shape checks throw before any state
changes), the input is threaded through the layers, and then outputs,
residual, scalar loss and loss derivative are recomputed.  Invoking an
empty loss `std::function` is `std::bad_function_call`. -/
def Network.predict (net : Network) (inputData : Option Mat) (targetArg : Option Vec) :
    Except NetError Network :=
  match net.applyInputArg inputData with
  | .error e => .error e
  | .ok net1 =>
    match net1.applyTargetArg targetArg with
    | .error e => .error e
    | .ok net2 =>
      match forwardChain net2.inputs net2.layers with
      | (layers', layerOut) =>
        match net2.vector_loss_func, net2.vector_loss_derivative with
        | some f, some fd =>
          .ok { net2 with
            layers := layers'
            outputs := layerOut.flatten
            resid := vsub layerOut.flatten net2.target
            scalar_loss := f layerOut.flatten net2.target
            loss_deriv := fd layerOut.flatten net2.target }
        | _, _ => .error .badFunctionCall

/-- The forward pass `predictVal` (lines 352-380), whose source body
duplicates `predict` line for line and additionally returns the output
vector. -/
def Network.predictVal (net : Network) (inputData : Option Mat) (targetArg : Option Vec) :
    Except NetError (Network × Vec) :=
  match net.applyInputArg inputData with
  | .error e => .error e
  | .ok net1 =>
    match net1.applyTargetArg targetArg with
    | .error e => .error e
    | .ok net2 =>
      match forwardChain net2.inputs net2.layers with
      | (layers', layerOut) =>
        match net2.vector_loss_func, net2.vector_loss_derivative with
        | some f, some fd =>
          .ok ({ net2 with
            layers := layers'
            outputs := layerOut.flatten
            resid := vsub layerOut.flatten net2.target
            scalar_loss := f layerOut.flatten net2.target
            loss_deriv := fd layerOut.flatten net2.target },
            layerOut.flatten)
        | _, _ => .error .badFunctionCall

/-- The backward walk of `backwardPass` (lines 385-389): the last layer
is seeded with the given vector; the loop `for i = size-2 downto 0`
then hands each layer `i` the already-updated layer `i+1`, embedded here
as right-to-left recursion (the downstream neighbour is processed
first, exactly as the loop order guarantees). -/
def backwardWalk (seed : Vec) : List Layer → List Layer
  | [] => []
  | [l] => [l.backwardVec seed]
  | l :: l2 :: rest =>
    match backwardWalk seed (l2 :: rest) with
    | [] => []
    | d :: ds => l.backwardFromLayer d :: d :: ds

/-- The backward pass `backwardPass` (lines 383-391): walk the layers
from last to first seeded with the cached `loss_deriv`, then expose the
first layer's gradient.  The source performs no staleness or
precondition check of any kind; on an empty layer list its indexing is
undefined (the spec requires non-emptiness), embedded as the identity. -/
def Network.backwardPass (net : Network) : Network :=
  match backwardWalk net.loss_deriv net.layers with
  | [] => net
  | l0 :: rest => { net with layers := l0 :: rest, gradient := l0.gradient }

/-- The weight update `updateWeights()` (lines 393-398). -/
def Network.updateWeights (net : Network) : Network :=
  { net with layers := net.layers.map Layer.updateWeights }

/-- One post-predict training round, shared verbatim by `train`'s first
round (lines 420-423) and its loop body (lines 428-430): backward pass,
append the scalar loss to the history, update the weights. -/
def Network.afterPredictRound (net : Network) : Network :=
  let n := net.backwardPass
  let n := { n with trainingLoss := n.trainingLoss ++ [n.scalar_loss] }
  n.updateWeights

/-- The `while` loop of `train` (lines 425-432): while
`num_iter <= maxIter && scalar_loss > stopTol`, run
predict / backward / record loss / update and increment the counter. -/
def Network.trainLoop (stopTol : ℚ) (maxIter : Nat) (net : Network) (num_iter : Nat) :
    Except NetError (Network × Nat) :=
  if h : num_iter ≤ maxIter ∧ stopTol < net.scalar_loss then
    match net.predict none none with
    | .error e => .error e
    | .ok n1 => Network.trainLoop stopTol maxIter n1.afterPredictRound (num_iter + 1)
  else .ok (net, num_iter)
termination_by maxIter + 1 - num_iter
decreasing_by
  have := h.1
  omega

/-- The training loop `train` (lines 412-437): one initial
predict/backward/record/update round with `num_iter = 1`, the `while`
loop, and finally the non-convergence warning, printed exactly when
`num_iter == maxIter && !noprint`; the warning is returned as the
boolean component. -/
def Network.train (net : Network) (stopTol : ℚ) (maxIter : Nat)
    (inputData : Option Mat) (targetArg : Option Vec) (noprint : Bool) :
    Except NetError (Network × Bool) :=
  match net.predict inputData targetArg with
  | .error e => .error e
  | .ok n =>
    match Network.trainLoop stopTol maxIter n.afterPredictRound 1 with
    | .error e => .error e
    | .ok (n2, num_iter) => .ok (n2, num_iter == maxIter && !noprint)

/-- The single-layer training scenario of spec section 8: a 1×1 network
with identity activation and L2 loss, learning-rate 1/10, weight
initialized to 1 through `setWeights`. -/
def scenarioNet : Network :=
  let n := (Network.mk1 (1, 1) 1 "identity" "L2").setUpdateParams (1 / 10)
  ((n.setWeights [⟨[[1]]⟩]).toOption).getD n

/-- The scenario input matrix, 1×1 with value 3. -/
def scenarioInput : Mat := ⟨[[3]]⟩

/-- The scenario target vector, `[6]`. -/
def scenarioTarget : Vec := [6]

/-- Running `train` on the scenario with tolerance 0 and maximum
iteration count 1 (spec section 8, non-convergence reporting). -/
def scenarioTrain : Except NetError (Network × Bool) :=
  scenarioNet.train 0 1 (some scenarioInput) (some scenarioTarget) false

/-- The network state reached by the first `predict` inside the scenario
run of `train` (total by falling back to `scenarioNet`; the call in fact
succeeds). -/
def scenarioAfterPredict : Network :=
  ((scenarioNet.predict (some scenarioInput) (some scenarioTarget)).toOption).getD scenarioNet

/-- The network entering the scenario's `while` loop: the first round's
backward pass, loss recording and weight update applied to
`scenarioAfterPredict`. -/
def scenarioRound1 : Network := scenarioAfterPredict.afterPredictRound

/-- The network produced by the single iteration the scenario's `while`
loop executes. -/
def scenarioRound2 : Network :=
  (((scenarioRound1.predict none none).toOption).getD scenarioRound1).afterPredictRound

/-- The network state after the `predict` of the scenario loop's single
iteration (total by fallback; the call in fact succeeds). -/
def scenarioMid : Network :=
  ((scenarioRound1.predict none none).toOption).getD scenarioRound1

/-- The shape invariant of spec section 8 as the source maintains it:
the recorded shape list is exactly the per-layer input shapes in layer
order, the network input shape is the first layer's input shape, and
`num_outputs` is the second component of the LAST LAYER'S INPUT SHAPE
(which is what every layer-list recomputation in the source stores
there, rather than the last layer's output width). -/
def ShapeInv (net : Network) : Prop :=
  net.layers ≠ [] ∧
  net.layer_input_shapes = net.layers.map Layer.getInputShape ∧
  net.input_shape = (net.layers.map Layer.getInputShape).headD (0, 0) ∧
  net.num_outputs = ((net.layers.map Layer.getInputShape).getLastD (0, 0)).2

/-- An exit of the `while` loop of `train` with the stopping condition
false: the loop returns the state and counter unchanged. -/
lemma trainLoop_exit (stopTol : ℚ) (maxIter : Nat) (net : Network) (num_iter : Nat)
    (h : ¬(num_iter ≤ maxIter ∧ stopTol < net.scalar_loss)) :
    Network.trainLoop stopTol maxIter net num_iter = .ok (net, num_iter) := by
  rw [Network.trainLoop]
  exact dif_neg h

/-- A step of the `while` loop of `train` with the stopping condition
true: one predict / backward / record / update round and an incremented
counter. -/
lemma trainLoop_step (stopTol : ℚ) (maxIter : Nat) (net : Network) (num_iter : Nat)
    (h : num_iter ≤ maxIter ∧ stopTol < net.scalar_loss) :
    Network.trainLoop stopTol maxIter net num_iter =
      match net.predict none none with
      | .error e => .error e
      | .ok n1 => Network.trainLoop stopTol maxIter n1.afterPredictRound (num_iter + 1) := by
  rw [Network.trainLoop]
  exact dif_pos h

/-- The scenario loop runs exactly one iteration: entered with counter 1
and loss 9/2 > 0, exited with counter 2 > maxIter = 1. -/
lemma scenario_loop_eval : Network.trainLoop 0 1 scenarioRound1 1 = .ok (scenarioRound2, 2) := by
  rw [trainLoop_step 0 1 scenarioRound1 1
    ⟨by norm_num, by with_unfolding_all exact of_decide_eq_true rfl⟩]
  rw [show scenarioRound1.predict none none = Except.ok scenarioMid by with_unfolding_all rfl]
  show Network.trainLoop 0 1 scenarioMid.afterPredictRound 2 = .ok (scenarioRound2, 2)
  rw [trainLoop_exit 0 1 scenarioMid.afterPredictRound 2 (by intro hc; omega)]
  rfl

/-- Evaluation of the full scenario `train` call: the result is the
state after two recorded rounds, with the warning flag FALSE (the source
compares `num_iter == maxIter`, i.e. 2 == 1, after the loop). -/
lemma scenarioTrain_eq : scenarioTrain = .ok (scenarioRound2, false) := by
  unfold scenarioTrain Network.train
  rw [show scenarioNet.predict (some scenarioInput) (some scenarioTarget)
        = Except.ok scenarioAfterPredict by with_unfolding_all rfl]
  show (match Network.trainLoop 0 1 scenarioAfterPredict.afterPredictRound 1 with
        | Except.error e => (Except.error e : Except NetError (Network × Bool))
        | Except.ok (n2, k) => Except.ok (n2, k == 1 && !false)) = .ok (scenarioRound2, false)
  rw [show scenarioAfterPredict.afterPredictRound = scenarioRound1 from rfl]
  rw [scenario_loop_eval]
  rfl

/-- The backward walk never turns a non-empty layer list empty. -/
lemma backwardWalk_ne_nil (seed : Vec) :
    ∀ ls : List Layer, ls ≠ [] → backwardWalk seed ls ≠ [] := by
  intro ls h
  match ls with
  | [l] => simp [backwardWalk]
  | l :: l2 :: rest =>
    unfold backwardWalk
    cases hw : backwardWalk seed (l2 :: rest) with
    | nil => exact absurd hw (backwardWalk_ne_nil seed (l2 :: rest) (by simp))
    | cons d ds => simp

/-- The backward walk preserves the layer count. -/
lemma backwardWalk_length (seed : Vec) :
    ∀ ls : List Layer, (backwardWalk seed ls).length = ls.length := by
  intro ls
  match ls with
  | [] => rfl
  | [l] => rfl
  | l :: l2 :: rest =>
    have ih := backwardWalk_length seed (l2 :: rest)
    unfold backwardWalk
    cases hw : backwardWalk seed (l2 :: rest) with
    | nil => rw [hw] at ih; simp at ih
    | cons d ds =>
      rw [hw] at ih
      simpa using ih

/-- The last element of the backward walk is the last source layer run
through its vector-seeded backward pass. -/
lemma backwardWalk_getLast? (seed : Vec) :
    ∀ ls : List Layer, (backwardWalk seed ls).getLast? =
      ls.getLast?.map (fun l => l.backwardVec seed) := by
  intro ls
  match ls with
  | [] => rfl
  | [l] => rfl
  | l :: l2 :: rest =>
    have ih := backwardWalk_getLast? seed (l2 :: rest)
    unfold backwardWalk
    cases hw : backwardWalk seed (l2 :: rest) with
    | nil => exact absurd hw (backwardWalk_ne_nil seed (l2 :: rest) (by simp))
    | cons d ds =>
      rw [hw] at ih
      rw [List.getLast?_cons_cons, ih, List.getLast?_cons_cons]

/-- Every non-last position of the backward walk holds the source layer
run backward against the ALREADY-UPDATED downstream neighbour, exactly
as the source loop from `size-2` down to `0` computes it. -/
lemma backwardWalk_getD (seed : Vec) :
    ∀ (ls : List Layer) (i : Nat), i + 1 < ls.length →
      (backwardWalk seed ls).getD i Layer.dflt =
        (ls.getD i Layer.dflt).backwardFromLayer
          ((backwardWalk seed ls).getD (i + 1) Layer.dflt) := by
  intro ls
  match ls with
  | [] => intro i hi; simp at hi
  | [l] => intro i hi; simp at hi
  | l :: l2 :: rest =>
    intro i hi
    have ih := backwardWalk_getD seed (l2 :: rest)
    unfold backwardWalk
    cases hw : backwardWalk seed (l2 :: rest) with
    | nil => exact absurd hw (backwardWalk_ne_nil seed (l2 :: rest) (by simp))
    | cons d ds =>
      cases i with
      | zero => simp [List.getD]
      | succ i =>
        have hi' : i + 1 < (l2 :: rest).length := by
          simpa using Nat.lt_of_succ_lt_succ hi
        have := ih i hi'
        rw [hw] at this
        simpa [List.getD] using this

/-- The result of `backwardPass` on a non-empty layer list: the layers
become the backward walk and the exposed gradient is the walk's first
layer's gradient. -/
lemma backwardPass_eq (net : Network) (h : net.layers ≠ []) :
    net.backwardPass.layers = backwardWalk net.loss_deriv net.layers ∧
    net.backwardPass.gradient =
      ((backwardWalk net.loss_deriv net.layers).headD Layer.dflt).gradient := by
  cases hw : backwardWalk net.loss_deriv net.layers with
  | nil => exact absurd hw (backwardWalk_ne_nil net.loss_deriv net.layers h)
  | cons l0 rest =>
    unfold Network.backwardPass
    rw [hw]
    exact ⟨rfl, rfl⟩

/-- C1: on every network with a non-empty layer list (the freshness of
`loss_deriv` plays no role in the source), `backwardPass` keeps the
layer count, seeds the LAST layer's backward call with the cached
loss-gradient vector, hands every other layer the already-updated
immediately-downstream layer — whose contribution depends only on its
error term and weights, never on its gradient — and finally exposes the
first layer's parameter gradient as the network gradient. -/
theorem backwardPass_walks_last_to_first (net : Network) (h : net.layers ≠ []) :
    net.backwardPass.layers.length = net.layers.length ∧
    net.backwardPass.layers.getLast? =
      net.layers.getLast?.map (fun l => l.backwardVec net.loss_deriv) ∧
    (∀ i, i + 1 < net.layers.length →
      net.backwardPass.layers.getD i Layer.dflt =
        (net.layers.getD i Layer.dflt).backwardFromLayer
          (net.backwardPass.layers.getD (i + 1) Layer.dflt)) ∧
    net.backwardPass.gradient = (net.backwardPass.layers.headD Layer.dflt).gradient ∧
    (∀ (l d : Layer) (g : Mat),
      l.backwardFromLayer { d with gradient := g } = l.backwardFromLayer d) := by
  obtain ⟨hl, hg⟩ := backwardPass_eq net h
  refine ⟨?_, ?_, ?_, ?_, ?_⟩
  · rw [hl]; exact backwardWalk_length net.loss_deriv net.layers
  · rw [hl]; exact backwardWalk_getLast? net.loss_deriv net.layers
  · intro i hi
    rw [hl]
    exact backwardWalk_getD net.loss_deriv net.layers i hi
  · rw [hg, hl]
  · intro l d g; rfl

/-- Witness for C1 at a concrete two-layer network. -/
theorem backwardPass_walks_last_to_first_witness :
    (Network.mkFromLayers [Layer.create (1, 1) 1 "identity",
      Layer.create (1, 1) 1 "identity"]).backwardPass.layers.length =
    (Network.mkFromLayers [Layer.create (1, 1) 1 "identity",
      Layer.create (1, 1) 1 "identity"]).layers.length :=
  (backwardPass_walks_last_to_first _ (by simp [Network.mkFromLayers])).1

/-- Flattening a constant matrix gives a constant vector. -/
lemma flatten_replicate (n c : Nat) (x : ℚ) :
    (List.replicate n (List.replicate c x)).flatten = List.replicate (n * c) x := by
  induction n with
  | zero => simp
  | succ n ih =>
    rw [List.replicate_succ, List.flatten_cons, ih, Nat.succ_mul, Nat.add_comm,
      List.replicate_add]

/-- Multiplying a zero vector elementwise into anything yields zeros. -/
lemma zipWith_mul_replicate_zero (n : Nat) (l : Vec) :
    List.zipWith (· * ·) (List.replicate n (0 : ℚ)) l =
      List.replicate (min n l.length) 0 := by
  induction n generalizing l with
  | zero => simp
  | succ n ih =>
    cases l with
    | nil => simp
    | cons a tl =>
      rw [List.replicate_succ, List.zipWith_cons_cons, ih tl, zero_mul]
      simp [List.replicate_succ, Nat.succ_min_succ]

/-- C3 (amended): `backwardPass` performs no staleness check whatsoever.
Invoked on ANY freshly constructed single-implicit-layer network — i.e.
with no forward pass since construction — it does not fail: it silently
operates on the zero-initialized cached loss gradient and produces an
all-zero parameter gradient. -/
theorem backwardPass_unchecked_zero_gradient (shape : Nat × Nat) (nout : Nat)
    (act loss : String) :
    (Network.mk1 shape nout act loss).backwardPass.gradient.data =
      List.replicate (min nout (nout * shape.2))
        (List.replicate (shape.1 * shape.2) (0 : ℚ)) := by
  show (Mat.outer
      (List.zipWith (· * ·) (List.replicate nout 0)
        (actDeriv act (Mat.flatten (Mat.zeros nout shape.2))))
      (Mat.flatten (Mat.zeros shape.1 shape.2))).data = _
  rw [show Mat.flatten (Mat.zeros nout shape.2) = List.replicate (nout * shape.2) 0 from
      flatten_replicate nout shape.2 0,
    show Mat.flatten (Mat.zeros shape.1 shape.2) = List.replicate (shape.1 * shape.2) 0 from
      flatten_replicate shape.1 shape.2 0]
  rw [show actDeriv act (List.replicate (nout * shape.2) 0) =
      List.replicate (nout * shape.2) (1 : ℚ) by simp [actDeriv]]
  rw [zipWith_mul_replicate_zero]
  simp [Mat.outer, List.map_replicate]

/-- C3 counterexample: a backward pass with no preceding forward pass
does NOT raise any error on the concrete fresh 1×1 network — it
silently produces the zero gradient (`backwardPass` in the source has no
throw statement at all). -/
theorem backwardPass_fresh_silently_computes :
    (Network.mk1 (1, 1) 1 "identity" "L2").backwardPass.gradient.data = [[0]] ∧
    (Network.mk1 (1, 1) 1 "identity" "L2").backwardPass.loss_deriv = [0] := by
  constructor
  · with_unfolding_all rfl
  · with_unfolding_all rfl

/-- C4 (amended): a loss name absent from the registries raises no error
anywhere — `operator[]` default-inserts — so construction installs the
empty function for both the loss and its derivative, and `setLossFunc`
with such a name overwrites (not preserves) the prior loss
configuration with empty functions. -/
theorem unknownLoss_installs_empty (name : String) (shape : Nat × Nat) (nout : Nat)
    (act : String)
    (h1 : VECTOR_LOSS.lookup name = none)
    (h2 : VECTOR_LOSS_DERIVATIVE.lookup name = none) :
    (Network.mk1 shape nout act name).vector_loss_func = none ∧
    (Network.mk1 shape nout act name).vector_loss_derivative = none ∧
    ∀ net : Network, (net.setLossFunc name).vector_loss_func = none ∧
      (net.setLossFunc name).vector_loss_derivative = none := by
  refine ⟨?_, ?_, fun net => ⟨?_, ?_⟩⟩ <;>
    simp [Network.mk1, Network.setLossFunc, lookupLoss, lookupLossDeriv, h1, h2]

/-- Witness for C4 at the unregistered name "bogus". -/
theorem unknownLoss_installs_empty_witness :
    (Network.mk1 (1, 1) 1 "identity" "bogus").vector_loss_func = none :=
  (unknownLoss_installs_empty "bogus" (1, 1) 1 "identity" rfl rfl).1

/-- C4 counterexample: constructing with the unregistered name "bogus"
does not raise `UnknownLossName` — it yields a network with an empty
loss function — and reconfiguring a valid "L2" network with "bogus"
destroys the prior (non-empty) loss state instead of preserving it. -/
theorem unknownLoss_cx :
    (Network.mk1 (1, 1) 1 "identity" "bogus").vector_loss_func = none ∧
    (Network.mk1 (1, 1) 1 "identity" "L2").vector_loss_func.isSome = true ∧
    ((Network.mk1 (1, 1) 1 "identity" "L2").setLossFunc "bogus").vector_loss_func = none :=
  ⟨rfl, rfl, rfl⟩

/-- Reading back the weights written by a full-length `setWeights`. -/
lemma map_getWeights_zipWith : ∀ (ls : List Layer) (ws : List Mat),
    ws.length = ls.length →
    (List.zipWith Layer.setWeights ls ws).map Layer.getWeights = ws := by
  intro ls
  induction ls with
  | nil => intro ws h; simp_all
  | cons l tl ih =>
    intro ws h
    cases ws with
    | nil => simp at h
    | cons w wtl =>
      simp only [List.zipWith_cons_cons, List.map_cons]
      rw [ih wtl (by simpa using h)]
      rfl

/-- C5: a weight list whose length differs from the layer count makes
`setWeights` throw the arity error before any layer is touched (the
check precedes the loop in the source, so the caller's network — and
hence `getWeights()` — is unchanged); a matching-length list reaches the
loop and installs exactly the given weights. -/
theorem setWeights_arity_guard (net : Network) :
    (∀ ws : List Mat, ws.length ≠ net.layers.length →
      net.setWeights ws = .error .arityMismatch) ∧
    (∀ ws : List Mat, ws.length = net.layers.length →
      (net.setWeights ws).map Network.getWeights = .ok ws) := by
  constructor
  · intro ws h
    simp [Network.setWeights, h]
  · intro ws h
    simp only [Network.setWeights, h, ne_eq, not_true_eq_false, if_false, Except.map]
    rw [Network.getWeights, map_getWeights_zipWith net.layers ws h]

/-- Witness for C5 at a concrete one-layer network and an empty weight
list. -/
theorem setWeights_arity_guard_witness :
    (Network.mk1 (1, 1) 1 "identity" "L2").setWeights [] = .error .arityMismatch :=
  (setWeights_arity_guard _).1 [] (by simp [Network.mk1])

/-- C6 at its failing input: `setTarget([5, 7], override)` on a fresh
1×1 network with `num_outputs = 1`.  The source's override branch
executes `num_outputs = target.size()` on the OLD target member, so the
stored output count stays 1 instead of becoming 2, and the last
recorded shape keeps second component 1, even though the new target
`[5, 7]` of length 2 is stored. -/
theorem setTarget_override_keeps_old_count :
    ((Network.mk1 (1, 1) 1 "identity" "L2").setTarget [5, 7] true).map
      (fun n => (n.num_outputs, n.target, n.layer_input_shapes)) =
      .ok (1, [5, 7], [(1, 1)]) := by
  with_unfolding_all rfl

/-- The stopping condition holds at every successful exit of `train`'s
`while` loop: the counter has exceeded the maximum or the loss has
fallen to the tolerance. -/
lemma trainLoop_post (tol : ℚ) (maxIter : Nat) :
    ∀ (fuel num_iter : Nat) (n n' : Network) (k' : Nat),
      maxIter + 1 - num_iter = fuel →
      Network.trainLoop tol maxIter n num_iter = .ok (n', k') →
      maxIter < k' ∨ n'.scalar_loss ≤ tol := by
  intro fuel
  induction fuel with
  | zero =>
    intro num_iter n n' k' hf h
    rw [trainLoop_exit tol maxIter n num_iter (by intro hc; omega)] at h
    simp only [Except.ok.injEq, Prod.mk.injEq] at h
    obtain ⟨h1, h2⟩ := h
    subst h1; subst h2
    exact Or.inl (by omega)
  | succ fuel ih =>
    intro num_iter n n' k' hf h
    by_cases hc : num_iter ≤ maxIter ∧ tol < n.scalar_loss
    · rw [trainLoop_step tol maxIter n num_iter hc] at h
      cases hp : n.predict none none with
      | error e => rw [hp] at h; simp at h
      | ok n1 =>
        rw [hp] at h
        exact ih (num_iter + 1) n1.afterPredictRound n' k' (by omega) h
    · rw [trainLoop_exit tol maxIter n num_iter hc] at h
      simp only [Except.ok.injEq, Prod.mk.injEq] at h
      obtain ⟨h1, h2⟩ := h
      subst h1; subst h2
      rcases not_and_or.mp hc with h1 | h2
      · exact Or.inl (by omega)
      · exact Or.inr (le_of_not_lt h2)

/-- C2 (amended): in the section-8 scenario with maximum iteration count
1 and tolerance 0, `train` performs the initial round PLUS one loop
iteration, leaving TWO entries in the loss history, and the loop exits
with counter 2, which exceeds the maximum (MaxIterationsReached); in
general the loop returns unchanged as soon as the condition
`num_iter <= maxIter && scalar_loss > stopTol` fails, and at every
successful exit the counter exceeds the maximum or the loss is at or
below the tolerance. -/
theorem train_stopping_behavior :
    (scenarioTrain.map (fun p => p.1.trainingLoss.length) = .ok 2) ∧
    (Network.trainLoop 0 1 scenarioRound1 1 = .ok (scenarioRound2, 2)) ∧
    (∀ (tol : ℚ) (maxIter num_iter : Nat) (n : Network),
      ¬(num_iter ≤ maxIter ∧ tol < n.scalar_loss) →
      Network.trainLoop tol maxIter n num_iter = .ok (n, num_iter)) ∧
    (∀ (tol : ℚ) (maxIter num_iter : Nat) (n n' : Network) (k' : Nat),
      Network.trainLoop tol maxIter n num_iter = .ok (n', k') →
      maxIter < k' ∨ n'.scalar_loss ≤ tol) := by
  refine ⟨?_, scenario_loop_eval, ?_, ?_⟩
  · rw [scenarioTrain_eq]
    with_unfolding_all rfl
  · exact fun tol maxIter num_iter n h => trainLoop_exit tol maxIter n num_iter h
  · exact fun tol maxIter num_iter n n' k' h =>
      trainLoop_post tol maxIter (maxIter + 1 - num_iter) num_iter n n' k' rfl h

/-- Witness for C2 applying the immediate-stop clause at counter 2,
maximum 1. -/
theorem train_stopping_behavior_witness :
    Network.trainLoop 0 1 scenarioRound2 2 = .ok (scenarioRound2, 2) :=
  train_stopping_behavior.2.2.1 0 1 2 scenarioRound2 (by intro hc; omega)

/-- C2 counterexample: the scenario `train` call with max iterations 1
and tolerance 0 leaves TWO entries in the training-loss history, not
one. -/
theorem train_maxIter1_two_history_entries :
    scenarioTrain.map (fun p => p.1.trainingLoss.length) = .ok 2 := by
  rw [scenarioTrain_eq]
  with_unfolding_all rfl

/-- C7 at its failing input (the scenario with max iterations 1,
tolerance 0, warnings enabled): the run hits the maximum — the history
shows both rounds and the final loss 9/200 is still above the tolerance
0 — yet the returned warning flag is FALSE, because after the loop
`num_iter` is 2 and the source compares it with `==` against
`maxIter = 1`. -/
theorem train_max_hit_no_warning :
    scenarioTrain = .ok (scenarioRound2, false) ∧
    scenarioRound2.trainingLoss = [9 / 2, 9 / 200] ∧
    (0 : ℚ) < scenarioRound2.scalar_loss := by
  refine ⟨scenarioTrain_eq, ?_, ?_⟩
  · with_unfolding_all rfl
  · with_unfolding_all exact of_decide_eq_true rfl

/-- The two duplicated forward-pass bodies agree: `predictVal` is
`predict` with the freshly stored output vector paired onto the
result. -/
lemma predictVal_map_eq (net : Network) (inp? : Option Mat) (tgt? : Option Vec) :
    net.predictVal inp? tgt? = (net.predict inp? tgt?).map (fun n => (n, n.outputs)) := by
  unfold Network.predictVal Network.predict
  cases hi : net.applyInputArg inp? with
  | error e => rfl
  | ok net1 =>
    simp only []
    cases ht : net1.applyTargetArg tgt? with
    | error e => rfl
    | ok net2 =>
      simp only []
      cases hfc : forwardChain net2.inputs net2.layers with
      | mk layers' layerOut =>
        simp only []
        cases hf : net2.vector_loss_func with
        | none => rfl
        | some f =>
          cases hfd : net2.vector_loss_derivative with
          | none => rfl
          | some fd => rfl

/-- C8: for every network state and every choice of the optional
input/target arguments, `predictVal` performs exactly the state update
of `predict` (same layer chaining, outputs, residual, scalar loss and
loss gradient, and the same error on every failure path), additionally
returning the just-stored output vector. -/
theorem predictVal_same_as_predict (net : Network) (inp? : Option Mat) (tgt? : Option Vec) :
    net.predictVal inp? tgt? = (net.predict inp? tgt?).map (fun n => (n, n.outputs)) :=
  predictVal_map_eq net inp? tgt?

/-- A non-override `setInputs` never changes the declared input shape. -/
lemma setInputs_false_shape (net : Network) (m : Mat) (n' : Network)
    (h : net.setInputs m false = .ok n') : n'.input_shape = net.input_shape := by
  unfold Network.setInputs at h
  simp only [Bool.not_false, if_true] at h
  split at h
  · simp at h
  · split at h
    · simp at h
    · simp only [Except.ok.injEq] at h
      subst h
      rfl

/-- `setTarget` never touches the declared input shape, with or without
the override flag. -/
lemma setTarget_shape (net : Network) (t : Vec) (ov : Bool) (n' : Network)
    (h : net.setTarget t ov = .ok n') : n'.input_shape = net.input_shape := by
  unfold Network.setTarget at h
  split at h
  · split at h
    · simp only [Except.ok.injEq] at h
      subst h
      rfl
    · simp at h
  · simp only [Except.ok.injEq] at h
    subst h
    rfl

/-- A successful `predict` leaves the declared input shape exactly as it
was: the override path of `setInputs` is unreachable from `predict`. -/
lemma predict_ok_shape (net : Network) (inp? : Option Mat) (tgt? : Option Vec)
    (n' : Network) (h : net.predict inp? tgt? = .ok n') :
    n'.input_shape = net.input_shape := by
  unfold Network.predict at h
  cases hi : net.applyInputArg inp? with
  | error e => simp only [hi] at h; simp at h
  | ok net1 =>
    simp only [hi] at h
    have h1 : net1.input_shape = net.input_shape := by
      cases inp? with
      | none =>
        have hi' : Except.ok net = Except.ok net1 := hi
        simp only [Except.ok.injEq] at hi'
        rw [← hi']
      | some m => exact setInputs_false_shape net m net1 hi
    cases ht : net1.applyTargetArg tgt? with
    | error e => simp only [ht] at h; simp at h
    | ok net2 =>
      simp only [ht] at h
      have h2 : net2.input_shape = net1.input_shape := by
        cases tgt? with
        | none =>
          have ht' : Except.ok net1 = Except.ok net2 := ht
          simp only [Except.ok.injEq] at ht'
          rw [← ht']
        | some t => exact setTarget_shape net1 t false net2 ht
      cases hfc : forwardChain net2.inputs net2.layers with
      | mk layers' layerOut =>
        simp only [hfc] at h
        cases hf : net2.vector_loss_func with
        | none => simp only [hf] at h; simp at h
        | some f =>
          cases hfd : net2.vector_loss_derivative with
          | none => simp only [hf, hfd] at h; simp at h
          | some fd =>
            simp only [hf, hfd, Except.ok.injEq] at h
            subst h
            rw [← h1, ← h2]

/-- C10: an input matrix whose dimensions differ from the declared
input shape makes `predict` and `predictVal` throw the shape error
(rows checked first, then columns) before any state is mutated, and a
successful `predict`/`predictVal` never changes the declared input
shape — the override path of `setInputs` is unreachable through these
calls. -/
theorem predict_shape_guard (net : Network) (m : Mat) (tgt? : Option Vec) :
    (m.rows ≠ net.input_shape.1 →
      net.predict (some m) tgt? = .error .shapeMismatchRows ∧
      net.predictVal (some m) tgt? = .error .shapeMismatchRows) ∧
    (m.rows = net.input_shape.1 → m.cols ≠ net.input_shape.2 →
      net.predict (some m) tgt? = .error .shapeMismatchCols ∧
      net.predictVal (some m) tgt? = .error .shapeMismatchCols) ∧
    (∀ (inp? : Option Mat) (t? : Option Vec) (n' : Network),
      net.predict inp? t? = .ok n' → n'.input_shape = net.input_shape) ∧
    (∀ (inp? : Option Mat) (t? : Option Vec) (p : Network × Vec),
      net.predictVal inp? t? = .ok p → p.1.input_shape = net.input_shape) := by
  have herr : ∀ e : NetError, net.setInputs m false = .error e →
      net.predict (some m) tgt? = .error e ∧
      net.predictVal (some m) tgt? = .error e := by
    intro e he
    constructor
    · unfold Network.predict
      simp only [Network.applyInputArg]
      rw [he]
    · rw [predictVal_map_eq]
      unfold Network.predict
      simp only [Network.applyInputArg]
      rw [he]
      rfl
  refine ⟨?_, ?_, predict_ok_shape net, ?_⟩
  · intro h
    refine herr _ ?_
    unfold Network.setInputs
    simp [h]
  · intro h1 h2
    refine herr _ ?_
    unfold Network.setInputs
    simp [h1, h2]
  · intro inp? t? p h
    rw [predictVal_map_eq] at h
    cases hp : net.predict inp? t? with
    | error e => rw [hp] at h; simp [Except.map] at h
    | ok n1 =>
      rw [hp] at h
      simp only [Except.map, Except.ok.injEq] at h
      subst h
      exact predict_ok_shape net inp? t? n1 hp

/-- Heads of appended lists come from a non-empty left part. -/
lemma headD_append_left (a b : List (Nat × Nat)) (d : Nat × Nat) (h : a ≠ []) :
    (a ++ b).headD d = a.headD d := by
  cases a with
  | nil => exact absurd rfl h
  | cons x xs => rfl

/-- A list is unchanged by `updateLast` when the function fixes its last
element. -/
lemma updateLast_eq_self {α : Type} (f : α → α) :
    ∀ l : List α, (∀ x, l.getLast? = some x → f x = x) → updateLast f l = l := by
  intro l
  match l with
  | [] => intro _; rfl
  | [a] =>
    intro hf
    show [f a] = [a]
    rw [hf a rfl]
  | a :: b :: rest =>
    intro hf
    have ih := updateLast_eq_self f (b :: rest) (by
      intro x hx
      exact hf x (by rwa [List.getLast?_cons_cons]))
    show a :: updateLast f (b :: rest) = a :: b :: rest
    rw [ih]

/-- `appendLayers` preserves the maintained shape invariant. -/
lemma appendLayers_shapeInv (net : Network) (ls : List Layer) (hInv : ShapeInv net) :
    ShapeInv (net.appendLayers ls) := by
  obtain ⟨h1, h2, h3, h4⟩ := hInv
  refine ⟨?_, ?_, ?_, ?_⟩
  · intro hc
    exact h1 (List.append_eq_nil.mp hc).1
  · show net.layer_input_shapes ++ ls.map Layer.getInputShape =
      (net.layers ++ ls).map Layer.getInputShape
    rw [h2, List.map_append]
  · show net.input_shape = ((net.layers ++ ls).map Layer.getInputShape).headD (0, 0)
    rw [List.map_append, headD_append_left _ _ _ (by simpa using h1)]
    exact h3
  · show ((net.layer_input_shapes ++ ls.map Layer.getInputShape).getLastD (0, 0)).2 =
      (((net.layers ++ ls).map Layer.getInputShape).getLastD (0, 0)).2
    rw [h2, List.map_append]

/-- C9 (amended): the recorded-shape invariant the source actually
maintains.  After list-based construction, `setLayers` and
`insertLayer`, and preserved by `appendLayers`, by non-override
`setInputs` and by `setTarget` (given the target-length invariant):
`layer_input_shapes` is exactly the per-layer input shapes in layer
order, the network input shape is the FIRST layer's input shape, and
`num_outputs` is the second component of the LAST layer's INPUT shape —
not the last layer's output width.  The single-implicit-layer
constructor also records one shape per layer and the first layer's
shape, and is the one place where `num_outputs` does equal the last
layer's output width. -/
theorem shape_inv_maintained :
    (∀ ls : List Layer, ls ≠ [] → ShapeInv (Network.mkFromLayers ls)) ∧
    (∀ (act loss : String) (ls : List Layer), ls ≠ [] → ShapeInv (Network.mk3 act loss ls)) ∧
    (∀ (shape : Nat × Nat) (nout : Nat) (act loss : String),
      (Network.mk1 shape nout act loss).layer_input_shapes =
        (Network.mk1 shape nout act loss).layers.map Layer.getInputShape ∧
      (Network.mk1 shape nout act loss).input_shape =
        ((Network.mk1 shape nout act loss).layers.map Layer.getInputShape).headD (0, 0) ∧
      (Network.mk1 shape nout act loss).num_outputs =
        ((Network.mk1 shape nout act loss).layers.headD Layer.dflt).output_width) ∧
    (∀ (net : Network) (ls : List Layer), ls ≠ [] → ShapeInv (net.setLayers ls)) ∧
    (∀ (net : Network) (ls : List Layer), ShapeInv net → ShapeInv (net.appendLayers ls)) ∧
    (∀ (net : Network) (pos : Nat) (l : Layer), ShapeInv net →
      ShapeInv (net.insertLayer pos l)) ∧
    (∀ (net : Network) (m : Mat) (n' : Network), ShapeInv net →
      net.setInputs m false = .ok n' → ShapeInv n') ∧
    (∀ (net : Network) (t : Vec) (ov : Bool) (n' : Network), ShapeInv net →
      net.target.length = net.num_outputs → net.setTarget t ov = .ok n' → ShapeInv n') := by
  refine ⟨?_, ?_, ?_, ?_, appendLayers_shapeInv, ?_, ?_, ?_⟩
  · intro ls h
    exact ⟨h, rfl, rfl, rfl⟩
  · intro act loss ls h
    exact ⟨h, rfl, rfl, rfl⟩
  · intro shape nout act loss
    exact ⟨rfl, rfl, rfl⟩
  · intro net ls h
    exact ⟨h, rfl, rfl, rfl⟩
  · intro net pos l hInv
    unfold Network.insertLayer
    split
    · exact appendLayers_shapeInv net [l] hInv
    · refine ⟨?_, rfl, rfl, rfl⟩
      simp [insertAt]
  · intro net m n' hInv h
    unfold Network.setInputs at h
    simp only [Bool.not_false, if_true] at h
    split at h
    · simp at h
    · split at h
      · simp at h
      · simp only [Except.ok.injEq] at h
        subst h
        exact ⟨hInv.1, hInv.2.1, hInv.2.2.1, hInv.2.2.2⟩
  · intro net t ov n' hInv htarget h
    obtain ⟨h1, h2, h3, h4⟩ := hInv
    unfold Network.setTarget at h
    split at h
    · split at h
      · simp only [Except.ok.injEq] at h
        subst h
        have hshapes : updateLast (fun s => (s.1, net.target.length))
            net.layer_input_shapes = net.layer_input_shapes := by
          apply updateLast_eq_self
          intro x hx
          have hx2 : x.2 = net.num_outputs := by
            rw [h4, ← h2, List.getLastD_eq_getLast?, hx]
            rfl
          rw [htarget, ← hx2]
        have hlayers : updateLast
            (fun l => l.setInputShape (net.layer_input_shapes.getLastD (0, 0)))
            net.layers = net.layers := by
          apply updateLast_eq_self
          intro x hx
          have harg : net.layer_input_shapes.getLastD (0, 0) = x.input_shape := by
            rw [h2, List.getLastD_eq_getLast?, List.getLast?_map, hx]
            rfl
          rw [harg]
          rfl
        rw [hshapes, hlayers]
        refine ⟨h1, h2, h3, ?_⟩
        show net.target.length = _
        rw [htarget]
        exact h4
      · simp at h
    · simp only [Except.ok.injEq] at h
      subst h
      exact ⟨h1, h2, h3, h4⟩

/-- Witness for C9: the invariant holds after a concrete list-based
construction. -/
theorem shape_inv_maintained_witness :
    ShapeInv (Network.mkFromLayers [Layer.create (2, 3) 5 "identity"]) :=
  shape_inv_maintained.1 [Layer.create (2, 3) 5 "identity"] (by simp)

/-- C9 counterexample: the list-based constructor derives `num_outputs`
from the last layer's INPUT shape, so a pre-built layer with input
shape 2×3 and output width 5 yields a network whose declared output
count is 3, not the last layer's output width 5. -/
theorem shape_inv_output_width_cx :
    (Network.mkFromLayers [Layer.create (2, 3) 5 "identity"]).num_outputs = 3 ∧
    (Layer.create (2, 3) 5 "identity").output_width = 5 ∧
    (Network.mkFromLayers [Layer.create (2, 3) 5 "identity"]).num_outputs ≠
      (Layer.create (2, 3) 5 "identity").output_width :=
  ⟨rfl, rfl, by decide⟩

/-- Witness for C10 at a 2×1 input offered to a 1×1 network. -/
theorem predict_shape_guard_witness :
    (Network.mk1 (1, 1) 1 "identity" "L2").predict (some ⟨[[1], [2]]⟩) none =
      .error .shapeMismatchRows ∧
    (Network.mk1 (1, 1) 1 "identity" "L2").predictVal (some ⟨[[1], [2]]⟩) none =
      .error .shapeMismatchRows :=
  (predict_shape_guard _ _ none).1 (by simp [Mat.rows, Network.mk1])

end NN
